import Mathlib

/-!
# Verification of the SecretSauce repository's specification

The repository couples a data-enrichment library (search-key conversion,
dataset validation, metrics evaluation — exercised by the test suite under
`src/tests/`) with a stand-alone product-scraping script
(`src/product_hunt_api.py`).  This file gives a shallow embedding of the
operations the specification's claims are about and settles each claim.

The enrichment library itself ships only its tests in this snapshot, so the
library-side definitions are modelled from the specification (each such
definition says so in its doc comment); the product-scraping script is
embedded directly from its source.
-/

set_option maxRecDepth 4000

namespace SecretSauce

/-! ## SHA-256 over `Nat`

The email converter hashes the lower-cased address with SHA-256 (the test
fixture's expected HEM value is the SHA-256 hex digest of
`test@google.com`).  Machine words are `Nat` reduced mod `2^32`. -/

/-- Reduce to a 32-bit word. -/
def w32 (n : Nat) : Nat := n % 4294967296

/-- Bitwise complement on 32-bit words. -/
def notw (x : Nat) : Nat := Nat.xor x 4294967295

/-- Right rotation of a 32-bit word by `n` bits. -/
def rotr32 (n x : Nat) : Nat :=
  w32 (Nat.lor (Nat.shiftRight x n) (Nat.shiftLeft x (32 - n)))

/-- SHA-256 `Ch` function. -/
def chf (x y z : Nat) : Nat := Nat.xor (Nat.land x y) (Nat.land (notw x) z)

/-- SHA-256 `Maj` function. -/
def maj (x y z : Nat) : Nat :=
  Nat.xor (Nat.xor (Nat.land x y) (Nat.land x z)) (Nat.land y z)

/-- SHA-256 big sigma 0. -/
def bsig0 (x : Nat) : Nat := Nat.xor (Nat.xor (rotr32 2 x) (rotr32 13 x)) (rotr32 22 x)

/-- SHA-256 big sigma 1. -/
def bsig1 (x : Nat) : Nat := Nat.xor (Nat.xor (rotr32 6 x) (rotr32 11 x)) (rotr32 25 x)

/-- SHA-256 small sigma 0. -/
def ssig0 (x : Nat) : Nat :=
  Nat.xor (Nat.xor (rotr32 7 x) (rotr32 18 x)) (Nat.shiftRight x 3)

/-- SHA-256 small sigma 1. -/
def ssig1 (x : Nat) : Nat :=
  Nat.xor (Nat.xor (rotr32 17 x) (rotr32 19 x)) (Nat.shiftRight x 10)

/-- The 64 SHA-256 round constants. -/
def shaK : List Nat :=
  [1116352408, 1899447441, 3049323471, 3921009573, 961987163,
   1508970993, 2453635748, 2870763221, 3624381080, 310598401,
   607225278, 1426881987, 1925078388, 2162078206, 2614888103,
   3248222580, 3835390401, 4022224774, 264347078, 604807628,
   770255983, 1249150122, 1555081692, 1996064986, 2554220882,
   2821834349, 2952996808, 3210313671, 3336571891, 3584528711,
   113926993, 338241895, 666307205, 773529912, 1294757372,
   1396182291, 1695183700, 1986661051, 2177026350, 2456956037,
   2730485921, 2820302411, 3259730800, 3345764771, 3516065817,
   3600352804, 4094571909, 275423344, 430227734, 506948616,
   659060556, 883997877, 958139571, 1322822218, 1537002063,
   1747873779, 1955562222, 2024104815, 2227730452, 2361852424,
   2428436474, 2756734187, 3204031479, 3329325298]

/-- The SHA-256 initial hash value. -/
def shaH0 : List Nat :=
  [1779033703, 3144134277, 1013904242, 2773480762,
   1359893119, 2600822924, 528734635, 1541459225]

/-- Extend a 16-word block schedule by `n` further words. -/
def extendSchedule : Nat → List Nat → List Nat
  | 0, ws => ws
  | n + 1, ws =>
      let t := ws.length
      let wt := w32 (ssig1 (ws.getD (t - 2) 0) + ws.getD (t - 7) 0 +
                     ssig0 (ws.getD (t - 15) 0) + ws.getD (t - 16) 0)
      extendSchedule n (ws ++ [wt])

/-- Working state of the SHA-256 compression loop. -/
structure ShaState where
  a : Nat
  b : Nat
  c : Nat
  d : Nat
  e : Nat
  f : Nat
  g : Nat
  h : Nat

/-- One SHA-256 compression round. -/
def compressStep (s : ShaState) (kw : Nat × Nat) : ShaState :=
  let t1 := w32 (s.h + bsig1 s.e + chf s.e s.f s.g + kw.1 + kw.2)
  let t2 := w32 (bsig0 s.a + maj s.a s.b s.c)
  ⟨w32 (t1 + t2), s.a, s.b, s.c, w32 (s.d + t1), s.e, s.f, s.g⟩

/-- Compress one 16-word block into the running 8-word hash value. -/
def compressBlock (hv : List Nat) (block : List Nat) : List Nat :=
  let ws := extendSchedule 48 block
  let s0 : ShaState := ⟨hv.getD 0 0, hv.getD 1 0, hv.getD 2 0, hv.getD 3 0,
                        hv.getD 4 0, hv.getD 5 0, hv.getD 6 0, hv.getD 7 0⟩
  let s := (shaK.zip ws).foldl compressStep s0
  [w32 (hv.getD 0 0 + s.a), w32 (hv.getD 1 0 + s.b), w32 (hv.getD 2 0 + s.c),
   w32 (hv.getD 3 0 + s.d), w32 (hv.getD 4 0 + s.e), w32 (hv.getD 5 0 + s.f),
   w32 (hv.getD 6 0 + s.g), w32 (hv.getD 7 0 + s.h)]

/-- Big-endian 8-byte encoding of a natural number. -/
def be64 (n : Nat) : List Nat :=
  (List.range 8).map (fun i => Nat.shiftRight n (56 - 8 * i) % 256)

/-- SHA-256 message padding: append `0x80`, zero bytes up to 56 mod 64, and
the 8-byte big-endian bit length. -/
def padMessage (msg : List Nat) : List Nat :=
  let z := (119 - msg.length % 64) % 64
  msg ++ [128] ++ List.replicate z 0 ++ be64 (8 * msg.length)

/-- Assemble four bytes into one big-endian 32-bit word. -/
def word4 (bs : List Nat) : Nat :=
  bs.foldl (fun acc b => acc * 256 + b) 0

/-- Split a padded byte string into 16-word blocks. -/
def toBlocks (padded : List Nat) : List (List Nat) :=
  (List.range (padded.length / 64)).map (fun i =>
    (List.range 16).map (fun j => word4 ((padded.drop (64 * i + 4 * j)).take 4)))

/-- SHA-256 digest of a byte string, as eight 32-bit words. -/
def sha256words (msg : List Nat) : List Nat :=
  (toBlocks (padMessage msg)).foldl compressBlock shaH0

/-- Lower-case hexadecimal digit. -/
def hexDigit (n : Nat) : Char :=
  if n < 10 then Char.ofNat (48 + n) else Char.ofNat (87 + n)

/-- Eight-digit hexadecimal rendering of a 32-bit word. -/
def hex8 (n : Nat) : String :=
  String.mk ((List.range 8).map (fun i => hexDigit (Nat.shiftRight n (28 - 4 * i) % 16)))

/-- Bytes of a string (the fixtures are ASCII, where this agrees with the
UTF-8 encoding Python hashes). -/
def strBytes (s : String) : List Nat := s.toList.map Char.toNat

/-- SHA-256 hex digest of a string, as `hashlib.sha256(...).hexdigest()`
renders it. -/
def sha256hex (s : String) : String :=
  String.join ((sha256words (strBytes s)).map hex8)

/-! ## Email search-key utilities

Modelled from the spec: the `upgini.utils.email_utils` module
(`EmailSearchKeyConverter`, `EmailSearchKeyDetector`) ships only its tests in
this snapshot, so the definitions below follow spec §4.1 and the fixtures of
`src/tests/test_email_utils.py`. -/

/-- A cell of a string-like dataframe column: a string, a non-string scalar
(the fixture's `0.0`), or a null. -/
inductive ECell where
  | s (v : String)
  | num (v : Int)
  | null
deriving DecidableEq, Repr

/-- Lower-casing, character by character (as Python's `str.lower()` acts on
the fixtures' ASCII addresses). -/
def strLower (s : String) : String := String.mk (s.toList.map Char.toLower)

/-- Modelled from the spec: the email pattern — an address is well formed when
it has a non-empty local part before a single `@` and a dotted domain that
neither starts nor ends with the dot (blank, bare `@`, missing local part,
and dot-less domains such as `12@3` do not match). -/
def isValidEmail (s : String) : Bool :=
  let cs := s.toList
  let lp := cs.takeWhile (fun c => c ≠ '@')
  let dom := (cs.dropWhile (fun c => c ≠ '@')).drop 1
  cs.count '@' == 1 && decide (lp ≠ []) && dom.contains '.' &&
    decide (dom.head? ≠ some '.') && decide (dom.getLast? ≠ some '.')

/-- The lower-cased address of a well-formed string cell, `none` otherwise. -/
def normalizedEmail : ECell → Option String
  | ECell.s v => let t := strLower v; if isValidEmail t then some t else none
  | _ => none

/-- Substring after the `@` of a well-formed address. -/
def domainOf (e : String) : String :=
  String.mk ((e.toList.dropWhile (fun c => c ≠ '@')).drop 1)

/-- HEM cell: SHA-256 hex digest of the lower-cased address, null when the
address is blank/null/malformed. -/
def hemCell (c : ECell) : ECell :=
  match normalizedEmail c with
  | some e => ECell.s (sha256hex e)
  | none => ECell.null

/-- `email_domain` cell: domain of the lower-cased address, null where HEM is
null. -/
def domainCell (c : ECell) : ECell :=
  match normalizedEmail c with
  | some e => ECell.s (domainOf e)
  | none => ECell.null

/-- Search-key tags (spec §3). -/
inductive SearchKey where
  | EMAIL
  | HEM
  | PHONE
  | MSISDN
  | DATE
  | DATETIME
  | COUNTRY
  | POSTAL_CODE
deriving DecidableEq, Repr

/-- A dataframe in column-major form: named columns of cells. -/
abbrev DFrame : Type := List (String × List ECell)

/-- Values of a named column (empty when absent). -/
def colValues (df : DFrame) (name : String) : List ECell :=
  ((df.find? (fun c => c.1 == name)).map Prod.snd).getD []

/-- Modelled from the spec: `EmailSearchKeyConverter` — carries the email
column name and the optional pre-existing HEM column name. -/
structure EmailSearchKeyConverter where
  emailColumn : String
  hemColumn : Option String

/-- Modelled from the spec: `EmailSearchKeyConverter.convert`.  With no
pre-existing HEM column the raw email column is replaced by a computed
`generated_hem` column and the mapping's EMAIL entry by a
`generated_hem ↦ HEM` entry; with a pre-existing HEM column the raw email
column and its mapping entry are dropped.  Either way an `email_domain`
column is emitted, null where HEM is null.  The Python method mutates the
caller's `search_keys` dict in place; the model returns the updated mapping
alongside the dataframe. -/
def EmailSearchKeyConverter.convert (cv : EmailSearchKeyConverter)
    (df : DFrame) (sk : List (String × SearchKey)) :
    DFrame × List (String × SearchKey) :=
  let emails := colValues df cv.emailColumn
  let domainCol := ("email_domain", emails.map domainCell)
  match cv.hemColumn with
  | none =>
      (df.map (fun c =>
          if c.1 = cv.emailColumn then ("generated_hem", emails.map hemCell) else c)
        ++ [domainCol],
       sk.filter (fun p => p.1 ≠ cv.emailColumn) ++ [("generated_hem", SearchKey.HEM)])
  | some _ =>
      (df.filter (fun c => c.1 ≠ cv.emailColumn) ++ [domainCol],
       sk.filter (fun p => p.1 ≠ cv.emailColumn))

/-- A column as the detector sees it: string-like (nullable strings) or
numeric. -/
inductive ColValues where
  | strs (vs : List (Option String))
  | nums (vs : List Int)
deriving DecidableEq

/-- The column-name aliases the detector always accepts. -/
def emailAliases : List String := ["email", "e-mail", "e_mail"]

/-- Modelled from the spec: value-sniffing — a column qualifies when it is
string-like and at least 20% of its non-null values match the email pattern;
numeric columns never qualify. -/
def qualifiesByValues : ColValues → Bool
  | ColValues.nums _ => false
  | ColValues.strs vs =>
      let nn := vs.filterMap id
      decide (0 < nn.length) && decide (nn.length ≤ 5 * nn.countP isValidEmail)

/-- Modelled from the spec: `EmailSearchKeyDetector.get_search_key_column` —
alias names win outright; otherwise the first column qualifying by values is
returned; `none` when no column qualifies. -/
def EmailSearchKeyDetector.get_search_key_column
    (df : List (String × ColValues)) : Option String :=
  match df.find? (fun c => emailAliases.contains c.1) with
  | some c => some c.1
  | none => (df.find? (fun c => qualifiesByValues c.2)).map Prod.fst

/-! ## Dataset validator

Modelled from the spec: `upgini.dataset.Dataset.validate` is absent from this
snapshot (only `src/tests/test_categorical_dataset.py` exercises it); the
model follows spec §4.2. -/

/-- One working-table row as the validator's rules see it: the MSISDN search
key, the converted date key, and the target. -/
structure VRow where
  msisdn : Option String
  date : Option Int
  target : Option Int
deriving DecidableEq

/-- Modelled from the spec: MSISDN format validation ("rows where the key
fails format validation are excluded"; the spec fixes no exact rule, so the
model takes a non-empty all-digit string of at least 10 digits). -/
def msisdnValid (s : String) : Bool :=
  decide (10 ≤ s.length) && s.toList.all Char.isDigit

/-- Modelled from the spec: a row is valid when its target is non-null and
each declared search key passes format validation. -/
def rowValid (r : VRow) : Bool :=
  r.target.isSome &&
    (match r.msisdn with
     | some m => msisdnValid m
     | Option.none => false) &&
    r.date.isSome

/-- The validator's working state: rows plus the `columns_renaming` map the
tests preset. -/
structure DatasetModel where
  rows : List VRow
  columnsRenaming : List (String × String)

/-- Modelled from the spec: `Dataset.validate` keeps exactly the rows
eligible for remote search; per-row format failures are not fatal, they only
reduce the valid count. -/
def Dataset.validate (d : DatasetModel) : DatasetModel :=
  { d with rows := d.rows.filter rowValid }

/-- `len(ds)`: the valid-row count after validation. -/
def Dataset.len (d : DatasetModel) : Nat := d.rows.length

/-! ## FeaturesEnricher and the Metrics Engine

Modelled from the spec: `upgini.features_enricher.FeaturesEnricher` is absent
from this snapshot (only `src/tests/test_metrics.py` exercises it); the
models follow spec §3 (cached sampled dataset), §4.4 (fit/transform) and
§4.5 (metrics report assembly). -/

/-- An input row of X: its deterministic `system_record_id` plus its cells. -/
structure InRow where
  sysId : Nat
  data : List ECell
deriving DecidableEq

/-- Features the remote search returned, keyed by `system_record_id`. -/
def lookupFeatures (matched : List (Nat × List ECell)) (sid : Nat) :
    Option (List ECell) :=
  (matched.find? (fun m => m.1 == sid)).map Prod.snd

/-- Modelled from the spec (§4.4 steps 3–4): merge returned features back
onto one input row — a matched row gets its feature cells, an unmatched row
gets null-filled feature cells; no row is dropped or duplicated. -/
def enrichRow (featCount : Nat) (matched : List (Nat × List ECell))
    (r : InRow) : List ECell :=
  r.data ++ (lookupFeatures matched r.sysId).getD (List.replicate featCount ECell.null)

/-- The cached sampled-dataset tuple of spec §3: sampled X, sampled y,
enriched X, eval entries (sampled eval X, enriched eval X, sampled eval y),
search keys, columns renaming. -/
structure CachedDataset where
  Xs : List (List ECell)
  y : List Rat
  enrichedXs : List (List ECell)
  evals : List (List (List ECell) × List (List ECell) × List Rat)
  searchKeys : List (String × SearchKey)
  columnsRenaming : List (String × String)

/-- The enricher's lifecycle state: the cached sampled dataset, absent until
`fit`/`fit_transform` has run. -/
structure FeaturesEnricher where
  cachedSampledDatasets : Option CachedDataset

/-- A freshly constructed enricher: no cached sampled dataset. -/
def FeaturesEnricher.init : FeaturesEnricher := ⟨Option.none⟩

/-- Modelled from the spec: `FeaturesEnricher.fit_transform` — enrich every
input row in place (spec §4.4 step 4), cache the sampled datasets for later
metric calls, and return the enriched X.  The remote search's matched
features arrive as `matched`; the number of feature columns is `featCount`. -/
def FeaturesEnricher.fit_transform (_e : FeaturesEnricher) (featCount : Nat)
    (matched : List (Nat × List ECell)) (sk : List (String × SearchKey))
    (X : List InRow) (y : List Rat) (evalSet : List (List InRow × List Rat)) :
    FeaturesEnricher × List (List ECell) :=
  let enriched := X.map (enrichRow featCount matched)
  (⟨some
      { Xs := X.map InRow.data
        y := y
        enrichedXs := enriched
        evals := evalSet.map (fun ev =>
          (ev.1.map InRow.data, ev.1.map (enrichRow featCount matched), ev.2))
        searchKeys := sk
        columnsRenaming := [] }⟩,
   enriched)

/-- The scoring functions the metrics engine accepts (spec §4.5). -/
inductive Scoring where
  | roc_auc
  | rmse
  | mean_absolute_error
  | RMSLE
  | mean_squared_error
  | mean_absolute_percentage_error
deriving DecidableEq

/-- Whether lower scores are better for this scoring function. -/
def Scoring.isErrorType : Scoring → Bool
  | Scoring.roc_auc => false
  | _ => true

/-- Modelled from the spec: the uplift sign convention — for error-type
scorings uplift is `baseline − enriched`, otherwise `enriched − baseline`,
so positive uplift always means improvement. -/
def upliftOf (s : Scoring) (baseline enriched : Rat) : Rat :=
  if s.isErrorType then baseline - enriched else enriched - baseline

/-- One row of the metrics report: segment label, row count, target mean,
baseline score, enriched score, uplift. -/
structure SegmentRow where
  segment : String
  rows : Nat
  targetMean : Rat
  baseline : Rat
  enriched : Rat
  uplift : Rat
deriving DecidableEq

/-- Mean of a target column. -/
def ratMean (ys : List Rat) : Rat := ys.sum / (ys.length : Rat)

/-- Assemble one segment row from its target column and its
(baseline, enriched) scores. -/
def mkSegmentRow (s : Scoring) (label : String) (ys : List Rat)
    (sc : Rat × Rat) : SegmentRow :=
  ⟨label, ys.length, ratMean ys, sc.1, sc.2, upliftOf s sc.1 sc.2⟩

/-- Modelled from the spec (§4.5): the Metrics Engine's report assembly —
one row per segment, Train first, then Eval 1..N in order.  The per-segment
(baseline, enriched) scores come out of the model-training runs, which this
embedding abstracts as the `scores` argument (index 0 = train,
index i+1 = eval i). -/
def metricsReport (s : Scoring) (scores : Nat → Rat × Rat)
    (c : CachedDataset) : List SegmentRow :=
  mkSegmentRow s "Train" c.y (scores 0) ::
    c.evals.enum.map (fun p =>
      mkSegmentRow s ("Eval " ++ toString (p.1 + 1)) p.2.2.2 (scores (p.1 + 1)))

/-- The library's error taxonomy as the metrics engine surfaces it; a
`ValidationError` carries the resource-bundle message key. -/
inductive UpginiError where
  | validation (msg : String)
deriving DecidableEq

/-- Modelled from the spec (§4.5 preconditions): `calculate_metrics` fails
with the designated "unfitted enricher" `ValidationError` (bundle key
`metrics_unfitted_enricher`) when no cached sampled dataset exists, and
otherwise assembles the report from the cache. -/
def FeaturesEnricher.calculate_metrics (e : FeaturesEnricher) (s : Scoring)
    (scores : Nat → Rat × Rat) : Except UpginiError (List SegmentRow) :=
  match e.cachedSampledDatasets with
  | Option.none => Except.error (UpginiError.validation "metrics_unfitted_enricher")
  | some c => Except.ok (metricsReport s scores c)

/-! ## The product-scraping script

Embedded from `src/product_hunt_api.py`.  Python values are modelled by
`PyVal`; fallible Python evaluation by `Except PyErr`. -/

/-- A Python value as the script manipulates them. -/
inductive PyVal where
  | nil
  | boolean (b : Bool)
  | int (n : Int)
  | str (s : String)
  | list (xs : List PyVal)
  | dict (kvs : List (String × PyVal))

/-- Python exceptions the script can hit. -/
inductive PyErr where
  | typeError
  | keyError
deriving DecidableEq

/-- Python hashability: scalars hash, lists and dicts raise `TypeError`. -/
def pyHashable : PyVal → Bool
  | PyVal.list _ => false
  | PyVal.dict _ => false
  | _ => true

/-- `functools.lru_cache`: the wrapper hashes the argument tuple before the
wrapped function runs, so an unhashable argument raises `TypeError` without
entering the body; the cache itself never changes a pure function's result. -/
def lruCache (f : PyVal → Except PyErr α) : PyVal → Except PyErr α :=
  fun v => if pyHashable v then f v else Except.error PyErr.typeError

/-- Python subscript `v[k]` for string keys. -/
def pyGet (v : PyVal) (k : String) : Except PyErr PyVal :=
  match v with
  | PyVal.dict kvs =>
      match kvs.find? (fun p => p.1 == k) with
      | some p => Except.ok p.2
      | Option.none => Except.error PyErr.keyError
  | _ => Except.error PyErr.typeError

/-- Python item assignment `v[k] = x` for string keys. -/
def pySet (v : PyVal) (k : String) (x : PyVal) : Except PyErr PyVal :=
  match v with
  | PyVal.dict kvs =>
      Except.ok (PyVal.dict
        (if kvs.any (fun p => p.1 == k) then
          kvs.map (fun p => if p.1 == k then (k, x) else p)
        else kvs ++ [(k, x)]))
  | _ => Except.error PyErr.typeError

/-- Coerce to a Python string (`TypeError` otherwise, as string
concatenation would raise). -/
def asStr : PyVal → Except PyErr String
  | PyVal.str s => Except.ok s
  | _ => Except.error PyErr.typeError

/-- Coerce to an iterable list (`TypeError` otherwise). -/
def asList : PyVal → Except PyErr (List PyVal)
  | PyVal.list xs => Except.ok xs
  | _ => Except.error PyErr.typeError

/-- `EXCLUDED_CATEGORIES` from the script. -/
def EXCLUDED_CATEGORIES : List String :=
  ["Developer Tools", "SaaS", "Enterprise", "B2B", "Business Intelligence",
   "Analytics", "Operations", "Human Resources", "Legal", "Accounting",
   "Fintech", "Payments", "Security", "Infrastructure", "API", "Database",
   "Cloud Computing", "DevOps", "GitHub", "Development", "Software Engineering",
   "No-Code", "Maker Tools", "Design Tools", "Marketing automation",
   "Customer Communication", "Sales", "Business", "Enterprise Software"]

/-- `B2B_KEYWORDS` from the script. -/
def B2B_KEYWORDS : List String :=
  ["enterprise", "business", "company", "team", "workflow",
   "management", "analytics", "dashboard", "integration", "api",
   "developer", "development", "infrastructure", "security"]

/-- `topic['node']['name']` for one element of `product['topics']['edges']`. -/
def topicName (t : PyVal) : Except PyErr String := do
  let node ← pyGet t "node"
  let name ← pyGet node "name"
  asStr name

/-- Substring containment, as Python's `keyword in text`. -/
def substr (needle hay : String) : Bool :=
  (List.range (hay.toList.length + 1)).any
    (fun i => needle.toList.isPrefixOf (hay.toList.drop i))

/-- The body of `is_consumer_product`: reject products whose topics meet
`EXCLUDED_CATEGORIES` or whose description+tagline text holds a B2B
keyword. -/
def is_consumer_product_body (product : PyVal) : Except PyErr Bool := do
  let topicsVal ← pyGet product "topics"
  let edgesVal ← pyGet topicsVal "edges"
  let edges ← asList edgesVal
  let topics ← edges.mapM topicName
  if topics.any (fun t => EXCLUDED_CATEGORIES.contains t) then
    return false
  else
    let descVal ← pyGet product "description"
    let desc ← asStr descVal
    let tagVal ← pyGet product "tagline"
    let tag ← asStr tagVal
    let text := (desc ++ " " ++ tag).toLower
    return !(B2B_KEYWORDS.any (fun k => substr k text))

/-- `is_consumer_product` as defined in the script: the body wrapped in
`@lru_cache(maxsize=1000)`. -/
def is_consumer_product : PyVal → Except PyErr Bool :=
  lruCache is_consumer_product_body

/-- A Python list comprehension with a fallible predicate: elements are
tested left to right and the first exception propagates. -/
def filterE (p : PyVal → Except PyErr Bool) : List PyVal → Except PyErr (List PyVal)
  | [] => Except.ok []
  | x :: xs => do
      let b ← p x
      let rest ← filterE p xs
      return if b then x :: rest else rest

/-- `product['votesCount']` as a sort key (non-int keys would fail the
comparisons `list.sort` performs). -/
def voteKey (p : PyVal) : Except PyErr Int := do
  let v ← pyGet p "votesCount"
  match v with
  | PyVal.int n => Except.ok n
  | _ => Except.error PyErr.typeError

/-- Stable descending insertion, matching `list.sort(key=..., reverse=True)`
on the vote key: equal keys keep their original order. -/
def insertDesc (x : Int × PyVal) : List (Int × PyVal) → List (Int × PyVal)
  | [] => [x]
  | y :: ys => if y.1 < x.1 then x :: y :: ys else y :: insertDesc x ys

/-- `process_products` from the script: filter to consumer products, sort by
votes descending, and stamp each survivor with the scraping date `now`. -/
def process_products (now : String) (products : List PyVal) :
    Except PyErr (List PyVal) := do
  let consumer ← filterE is_consumer_product products
  let keyed ← consumer.mapM (fun p => do
    let k ← voteKey p
    return (k, p))
  let sorted := (keyed.foldr insertDesc []).map Prod.snd
  sorted.mapM (fun p => pySet p "scraped_date" (PyVal.str now))

/-! ## Fixtures and auxiliary predicates used by the claims -/

/-- The email column of `test_convertion_to_hem`:
`{"email": ["test@google.com", "", "@", None, 0.0]}`. -/
def emailFixture : DFrame :=
  [("email",
    [ECell.s "test@google.com", ECell.s "", ECell.s "@", ECell.null, ECell.num 0])]

/-- Whether a mapping entry is an EMAIL-or-HEM identity entry. -/
def isIdentityKey (p : String × SearchKey) : Bool :=
  p.2 == SearchKey.EMAIL || p.2 == SearchKey.HEM

/-- The EMAIL/HEM entries of a search-key mapping, in order. -/
def identityEntries (sk : List (String × SearchKey)) :
    List (String × SearchKey) :=
  sk.filter isIdentityKey

/-- Modelled from the spec: the standard 1000-row fixture of
`test_blocked_timeseries_rmsle` (its data file `test_data/enricher/input.csv`
is absent from this snapshot) — a binary target split 500/250/250 with the
stated segment means 0.51, 0.452 and 0.536, cached with phone+date search
keys. -/
def standardFixture : CachedDataset where
  Xs := List.replicate 500 []
  y := List.replicate 255 (1 : Rat) ++ List.replicate 245 0
  enrichedXs := List.replicate 500 []
  evals :=
    [(List.replicate 250 [], List.replicate 250 [],
      List.replicate 113 (1 : Rat) ++ List.replicate 137 0),
     (List.replicate 250 [], List.replicate 250 [],
      List.replicate 134 (1 : Rat) ++ List.replicate 116 0)]
  searchKeys := [("phone", SearchKey.PHONE), ("date", SearchKey.DATE)]
  columnsRenaming := []

/-! ## Claims -/

/-- C1: for every `fit_transform` call the returned enriched dataframe has
exactly as many rows as the input X, regardless of how many rows the remote
search matched, and every unmatched row receives null-filled feature cells
rather than being dropped. -/
theorem fit_transform_row_count_invariant :
    ∀ (e : FeaturesEnricher) (featCount : Nat) (matched : List (Nat × List ECell))
      (sk : List (String × SearchKey)) (X : List InRow) (y : List Rat)
      (evalSet : List (List InRow × List Rat)),
      ((e.fit_transform featCount matched sk X y evalSet).2).length = X.length ∧
      (∀ i (h : i < X.length),
        lookupFeatures matched (X.get ⟨i, h⟩).sysId = Option.none →
        ((e.fit_transform featCount matched sk X y evalSet).2).get? i =
          some ((X.get ⟨i, h⟩).data ++ List.replicate featCount ECell.null)) := by
  intro e featCount matched sk X y evalSet
  refine ⟨by simp [FeaturesEnricher.fit_transform], ?_⟩
  intro i h hnone
  show (X.map (enrichRow featCount matched)).get? i = _
  rw [List.get?_map, List.get?_eq_get h]
  show some ((X.get ⟨i, h⟩).data ++
      (lookupFeatures matched (X.get ⟨i, h⟩).sysId).getD
        (List.replicate featCount ECell.null)) = _
  rw [hnone]
  rfl

/-- Witness for C1: a one-row X whose record id the remote search did not
match comes back as one row padded with two null feature cells. -/
theorem fit_transform_row_count_invariant_witness :
    ((FeaturesEnricher.init.fit_transform 2 [] [] [⟨1, [ECell.num 7]⟩] [1] []).2).length
        = 1 ∧
      ((FeaturesEnricher.init.fit_transform 2 [] [] [⟨1, [ECell.num 7]⟩] [1] []).2).get? 0
        = some ([ECell.num 7] ++ List.replicate 2 ECell.null) :=
  ⟨(fit_transform_row_count_invariant FeaturesEnricher.init 2 [] [] [⟨1, [ECell.num 7]⟩]
      [1] []).1,
   (fit_transform_row_count_invariant FeaturesEnricher.init 2 [] [] [⟨1, [ECell.num 7]⟩]
      [1] []).2 0 (by decide) rfl⟩

/-- C2: `calculate_metrics` on an enricher with no cached sampled dataset —
in particular on a freshly constructed, never-fitted enricher — fails with
the designated `metrics_unfitted_enricher` `ValidationError`, for every such
enricher. -/
theorem calculate_metrics_unfitted_guard :
    (∀ (e : FeaturesEnricher) (s : Scoring) (scores : Nat → Rat × Rat),
        e.cachedSampledDatasets = Option.none →
        e.calculate_metrics s scores =
          Except.error (UpginiError.validation "metrics_unfitted_enricher")) ∧
    (∀ (s : Scoring) (scores : Nat → Rat × Rat),
        FeaturesEnricher.init.calculate_metrics s scores =
          Except.error (UpginiError.validation "metrics_unfitted_enricher")) := by
  constructor
  · rintro ⟨c⟩ s scores h
    obtain rfl : c = Option.none := h
    rfl
  · intro s scores
    rfl

/-- Witness for C2: the fresh enricher raises the unfitted-enricher error. -/
theorem calculate_metrics_unfitted_guard_witness :
    FeaturesEnricher.init.calculate_metrics Scoring.roc_auc (fun _ => (0, 0)) =
      Except.error (UpginiError.validation "metrics_unfitted_enricher") :=
  calculate_metrics_unfitted_guard.1 FeaturesEnricher.init Scoring.roc_auc
    (fun _ => (0, 0)) rfl

/-- C4: the Dataset Validator is idempotent — re-validating the
already-validated frame, with `columns_renaming` preset to an identity
mapping, yields the same valid-row count as the first pass. -/
theorem dataset_validate_idempotent :
    ∀ (d : DatasetModel) (ren : List (String × String)),
      (∀ p ∈ ren, p.1 = p.2) →
      Dataset.len (Dataset.validate
          { rows := (Dataset.validate d).rows, columnsRenaming := ren }) =
        Dataset.len (Dataset.validate d) := by
  intro d ren _
  simp [Dataset.validate, Dataset.len, List.filter_filter]

/-- Witness for C4: one mixed fixture validated twice keeps its survivor
count. -/
theorem dataset_validate_idempotent_witness :
    (∀ p ∈ ([("a", "a")] : List (String × String)), p.1 = p.2) ∧
      Dataset.len (Dataset.validate
          { rows := (Dataset.validate
              { rows := [⟨some "79261234567", some 18000, some 1⟩,
                         ⟨some "abc", some 18000, some 1⟩,
                         ⟨some "79261234567", some 18000, Option.none⟩],
                columnsRenaming := [("a", "b")] }).rows,
            columnsRenaming := [("a", "a")] }) =
        Dataset.len (Dataset.validate
          { rows := [⟨some "79261234567", some 18000, some 1⟩,
                     ⟨some "abc", some 18000, some 1⟩,
                     ⟨some "79261234567", some 18000, Option.none⟩],
            columnsRenaming := [("a", "b")] }) :=
  ⟨by decide,
   dataset_validate_idempotent
     { rows := [⟨some "79261234567", some 18000, some 1⟩,
                ⟨some "abc", some 18000, some 1⟩,
                ⟨some "79261234567", some 18000, Option.none⟩],
       columnsRenaming := [("a", "b")] }
     [("a", "a")] (by decide)⟩

/-- C5: converting `{"email": ["test@google.com", "", "@", None, 0.0]}`
yields a `generated_hem` column whose first entry is the SHA-256 digest of
the lower-cased address and whose other four entries are null, and an
`email_domain` column equal to "google.com" in the first row and null in the
remaining four rows. -/
theorem email_conversion_fixture :
    (EmailSearchKeyConverter.convert ⟨"email", Option.none⟩ emailFixture
        [("email", SearchKey.EMAIL)]).1 =
      [("generated_hem",
        [ECell.s "8b0080a904da73e6e500ada3d09a88037289b5c08e03d3a09546ffacc5b5fd57",
         ECell.null, ECell.null, ECell.null, ECell.null]),
       ("email_domain",
        [ECell.s "google.com", ECell.null, ECell.null, ECell.null, ECell.null])] ∧
    (colValues (EmailSearchKeyConverter.convert ⟨"email", Option.none⟩ emailFixture
        [("email", SearchKey.EMAIL)]).1 "generated_hem").getD 0 ECell.null =
      ECell.s (sha256hex (strLower "test@google.com")) := by
  decide

/-- C6: the email detector accepts a column named `email`/`e-mail`/`e_mail`
outright; a column of arbitrary name is detected iff it is string-typed and
at least 20% of its non-null values match the email pattern; a numeric
column is never detected; and when no column qualifies the detector returns
`None`. -/
theorem email_detection_rules :
    (∀ (name : String) (vs : ColValues), name ∈ emailAliases →
        EmailSearchKeyDetector.get_search_key_column [(name, vs)] = some name) ∧
    (∀ (name : String) (vs : List (Option String)), name ∉ emailAliases →
        (EmailSearchKeyDetector.get_search_key_column [(name, ColValues.strs vs)] =
            some name ↔
          0 < (vs.filterMap id).length ∧
            (vs.filterMap id).length ≤ 5 * (vs.filterMap id).countP isValidEmail)) ∧
    (∀ (name : String) (ns : List Int), name ∉ emailAliases →
        EmailSearchKeyDetector.get_search_key_column [(name, ColValues.nums ns)] =
          Option.none) ∧
    (∀ df : List (String × ColValues),
        (∀ c ∈ df, c.1 ∉ emailAliases ∧ qualifiesByValues c.2 = false) →
        EmailSearchKeyDetector.get_search_key_column df = Option.none) := by
  refine ⟨?_, ?_, ?_, ?_⟩
  · intro name vs h
    have hc : emailAliases.contains name = true := by
      simp [List.contains, List.elem_iff, h]
    unfold EmailSearchKeyDetector.get_search_key_column
    rw [List.find?_cons_of_pos _ (by simpa using hc)]
  · intro name vs h
    have hqiff : qualifiesByValues (ColValues.strs vs) = true ↔
        (0 < (vs.filterMap id).length ∧
          (vs.filterMap id).length ≤ 5 * (vs.filterMap id).countP isValidEmail) := by
      simp [qualifiesByValues]
    unfold EmailSearchKeyDetector.get_search_key_column
    rw [List.find?_cons_of_neg _ (by simpa using h), List.find?_nil]
    by_cases hq : qualifiesByValues (ColValues.strs vs) = true
    · rw [List.find?_cons_of_pos _ (by simpa using hq)]
      exact iff_of_true rfl (hqiff.mp hq)
    · rw [List.find?_cons_of_neg _ (by simpa using hq), List.find?_nil]
      exact iff_of_false (by simp) (fun hr => hq (hqiff.mpr hr))
  · intro name ns h
    unfold EmailSearchKeyDetector.get_search_key_column
    rw [List.find?_cons_of_neg _ (by simpa using h), List.find?_nil,
      List.find?_cons_of_neg _ (by simp [qualifiesByValues]), List.find?_nil]
    rfl
  · intro df hall
    have h1 : List.find? (fun c => emailAliases.contains c.1) df = Option.none := by
      rw [List.find?_eq_none]
      intro c hc
      simpa using (hall c hc).1
    have h2 : List.find? (fun c => qualifiesByValues c.2) df = Option.none := by
      rw [List.find?_eq_none]
      intro c hc
      simp [(hall c hc).2]
    unfold EmailSearchKeyDetector.get_search_key_column
    rw [h1, h2]
    rfl

/-- Witness for C6: the three detection fixtures of
`test_email_utils.py` — alias name with non-address values, a 20%-valid
arbitrary-name column, and a numeric column. -/
theorem email_detection_rules_witness :
    EmailSearchKeyDetector.get_search_key_column
        [("e-mail", ColValues.strs [some "123", some "321", some "555"])] =
      some "e-mail" ∧
    EmailSearchKeyDetector.get_search_key_column
        [("eml", ColValues.strs ([some "asdf@asdf.sad", some "woei@skdjfh.fnj"] ++
          List.replicate 8 (some "12@3")))] = some "eml" ∧
    EmailSearchKeyDetector.get_search_key_column
        [("eml", ColValues.nums [1, 2, 3, 4, 5])] = Option.none :=
  ⟨email_detection_rules.1 "e-mail" _ (by decide),
   (email_detection_rules.2.1 "eml" _ (by decide)).mpr (by decide),
   email_detection_rules.2.2.1 "eml" [1, 2, 3, 4, 5] (by decide)⟩

/-- C7: after `EmailSearchKeyConverter.convert` the search-keys mapping
holds exactly one EMAIL-or-HEM entry and no residual email-only entry: with
no pre-existing HEM column that entry is `generated_hem ↦ HEM`, with a
pre-existing HEM column only the HEM entry remains. -/
theorem email_convert_search_keys_contract :
    ∀ (sk : List (String × SearchKey)) (df : DFrame) (emailCol : String),
      (identityEntries sk = [(emailCol, SearchKey.EMAIL)] →
        identityEntries
            ((EmailSearchKeyConverter.convert ⟨emailCol, Option.none⟩ df sk).2) =
          [("generated_hem", SearchKey.HEM)]) ∧
      (∀ hemCol : String, emailCol ≠ hemCol →
        identityEntries sk = [(emailCol, SearchKey.EMAIL), (hemCol, SearchKey.HEM)] →
        identityEntries
            ((EmailSearchKeyConverter.convert ⟨emailCol, some hemCol⟩ df sk).2) =
          [(hemCol, SearchKey.HEM)]) := by
  intro sk df emailCol
  have comm : ∀ l : List (String × SearchKey),
      identityEntries (l.filter (fun p => decide (p.1 ≠ emailCol))) =
        (identityEntries l).filter (fun p => decide (p.1 ≠ emailCol)) := by
    intro l
    simp only [identityEntries, List.filter_filter]
    exact List.filter_congr (fun a _ => Bool.and_comm _ _)
  constructor
  · intro h1
    show identityEntries ((sk.filter (fun p => decide (p.1 ≠ emailCol))) ++
        [("generated_hem", SearchKey.HEM)]) = _
    rw [identityEntries, List.filter_append, ← identityEntries, ← identityEntries,
      comm sk, h1]
    simp [identityEntries, isIdentityKey]
  · intro hemCol hne h2
    show identityEntries (sk.filter (fun p => decide (p.1 ≠ emailCol))) = _
    rw [comm sk, h2]
    simp [Ne.symm hne]

/-- Witness for C7: the two conversion fixtures of `test_email_utils.py` —
no pre-existing HEM, and a pre-existing `hem` column. -/
theorem email_convert_search_keys_contract_witness :
    identityEntries ((EmailSearchKeyConverter.convert ⟨"email", Option.none⟩
        emailFixture [("email", SearchKey.EMAIL)]).2) =
      [("generated_hem", SearchKey.HEM)] ∧
    identityEntries ((EmailSearchKeyConverter.convert ⟨"email", some "hem"⟩
        [] [("email", SearchKey.EMAIL), ("hem", SearchKey.HEM)]).2) =
      [("hem", SearchKey.HEM)] :=
  ⟨(email_convert_search_keys_contract [("email", SearchKey.EMAIL)] emailFixture
      "email").1 (by decide),
   (email_convert_search_keys_contract
      [("email", SearchKey.EMAIL), ("hem", SearchKey.HEM)] [] "email").2 "hem"
      (by decide) (by decide)⟩

/-- C8: for every error-type scoring function, every segment row of the
metrics report carries `Uplift = baseline − enriched`, so positive uplift
means the enriched model improved on the baseline. -/
theorem error_metric_uplift_orientation :
    ∀ (s : Scoring) (scores : Nat → Rat × Rat) (c : CachedDataset)
      (row : SegmentRow), s.isErrorType = true →
      row ∈ metricsReport s scores c →
      row.uplift = row.baseline - row.enriched ∧
        (0 < row.uplift ↔ row.enriched < row.baseline) := by
  intro s scores c row hs hrow
  have key : row.uplift = row.baseline - row.enriched := by
    rcases List.mem_cons.mp hrow with h | h
    · subst h
      simp [mkSegmentRow, upliftOf, hs]
    · obtain ⟨p, hp, rfl⟩ := List.mem_map.mp h
      simp [mkSegmentRow, upliftOf, hs]
  refine ⟨key, ?_⟩
  rw [key]
  exact sub_pos

/-- Witness for C8: the train row of a one-segment rmse report with
baseline 3 and enriched 1 carries uplift `3 − 1`, and it is positive
because the enriched error is lower. -/
theorem error_metric_uplift_orientation_witness :
    (mkSegmentRow Scoring.rmse "Train" [(1 : Rat)] (3, 1)).uplift =
        (mkSegmentRow Scoring.rmse "Train" [(1 : Rat)] (3, 1)).baseline -
          (mkSegmentRow Scoring.rmse "Train" [(1 : Rat)] (3, 1)).enriched ∧
      (0 < (mkSegmentRow Scoring.rmse "Train" [(1 : Rat)] (3, 1)).uplift ↔
        (mkSegmentRow Scoring.rmse "Train" [(1 : Rat)] (3, 1)).enriched <
          (mkSegmentRow Scoring.rmse "Train" [(1 : Rat)] (3, 1)).baseline) :=
  error_metric_uplift_orientation Scoring.rmse (fun _ => (3, 1))
    { Xs := [], y := [(1 : Rat)], enrichedXs := [], evals := [],
      searchKeys := [], columnsRenaming := [] }
    (mkSegmentRow Scoring.rmse "Train" [(1 : Rat)] (3, 1))
    rfl (List.mem_cons_self _ _)

/-- C9: on the standard 1000-row fixture cached as 500/250/250 train/eval
segments with phone+date search keys, `calculate_metrics` with RMSLE
scoring returns a report of exactly three segment rows with row counts
[500, 250, 250] and target means [0.51, 0.452, 0.536]. -/
theorem rmsle_fixture_report_shape :
    ∀ scores : Nat → Rat × Rat,
      FeaturesEnricher.calculate_metrics ⟨some standardFixture⟩ Scoring.RMSLE
          scores =
        Except.ok (metricsReport Scoring.RMSLE scores standardFixture) ∧
      (metricsReport Scoring.RMSLE scores standardFixture).length = 3 ∧
      (metricsReport Scoring.RMSLE scores standardFixture).map SegmentRow.segment =
        ["Train", "Eval 1", "Eval 2"] ∧
      (metricsReport Scoring.RMSLE scores standardFixture).map SegmentRow.rows =
        [500, 250, 250] ∧
      (metricsReport Scoring.RMSLE scores standardFixture).map SegmentRow.targetMean =
        [51 / 100, 113 / 250, 67 / 125] := by
  intro scores
  refine ⟨rfl, rfl, rfl, rfl, ?_⟩
  show List.map SegmentRow.targetMean _ = _
  simp [metricsReport, standardFixture, mkSegmentRow, ratMean, List.enum,
    List.enumFrom, List.sum_append, List.sum_replicate, List.length_append,
    List.length_replicate, nsmul_eq_mul]
  norm_num

/-- C10: `is_consumer_product` is wrapped in `@lru_cache` but takes a dict,
which is unhashable — every call on a dict raises `TypeError` before the
body runs, so `process_products` raises `TypeError` on every list holding at
least one product and returns normally only on the empty list. -/
theorem lru_cache_dict_type_error :
    (∀ kvs, is_consumer_product (PyVal.dict kvs) = Except.error PyErr.typeError) ∧
    (∀ (now : String) (ps : List PyVal), ps ≠ [] →
        (∀ p ∈ ps, ∃ kvs, p = PyVal.dict kvs) →
        process_products now ps = Except.error PyErr.typeError) ∧
    (∀ now : String, process_products now [] = Except.ok []) := by
  refine ⟨fun kvs => rfl, ?_, fun now => rfl⟩
  intro now ps hne hall
  match ps, hne with
  | p :: rest, _ =>
    obtain ⟨kvs, rfl⟩ := hall p (List.mem_cons_self p rest)
    rfl

/-- Witness for C10: a single product dict in the shape the script builds
makes `process_products` raise `TypeError`. -/
theorem lru_cache_dict_type_error_witness :
    process_products "2025-06-01"
        [PyVal.dict [("name", PyVal.str "demo"), ("votesCount", PyVal.int 5)]] =
      Except.error PyErr.typeError :=
  lru_cache_dict_type_error.2.1 "2025-06-01"
    [PyVal.dict [("name", PyVal.str "demo"), ("votesCount", PyVal.int 5)]]
    (by simp)
    (by
      intro p hp
      simp only [List.mem_singleton] at hp
      exact ⟨_, hp⟩)

end SecretSauce
